import Mathlib

/-!
Shallow embedding of the AroundU backend core:
  * `RoomManager` (src/unnamed/part_000, the current RoomManager.js): presence
    registry, matching, nearby search, room allocation and teardown;
  * `BotManager` (src/src/services/BotManager.js): static agent catalog,
    nearby annotation, and the sequential response queue;
  * the payload-shaping fragments of the socket handlers in src/src/server.js
    that the claims reference (register_location validation, bot-name masking).

JavaScript `Map`s are modelled as insertion-ordered association lists
(`Map.set` updates in place or appends; iteration follows insertion order).
JavaScript truthiness on numbers (`null`/`undefined`/`0` are falsy) and on
strings (`undefined`/`""` are falsy) is modelled explicitly.  Sources of
nondeterminism (uuid, Math.random, Date.now, the generated username) are
passed as explicit arguments.  Room membership stores references (ids), which
reproduces the aliasing between `room.users[i]` and the registry objects.
-/

namespace AroundU

/-- Participant status strings of RoomManager.js. -/
inductive Status
  | AVAILABLE
  | BUSY
deriving DecidableEq, Repr

/-- JS truthiness for an optional numeric field: `undefined`/`null` and `0` are falsy. -/
def truthyQ : Option ℚ → Bool
  | none => false
  | some q => q != 0

/-- JS truthiness for an optional string field: `undefined` and `""` are falsy. -/
def truthyS : Option String → Bool
  | none => false
  | some s => s != ""

/-- `Math.round`: round half toward positive infinity. -/
def jsRound (q : ℚ) : ℤ := (q + 1/2).floor

/-- Insertion-ordered association list update, the semantics of `Map.set`:
an existing key keeps its position and gets the new value, a new key is appended. -/
def setEntry {α : Type} (l : List (String × α)) (k : String) (v : α) : List (String × α) :=
  if l.any (fun p => p.1 = k) then l.map (fun p => if p.1 = k then (k, v) else p)
  else l ++ [(k, v)]

/-- `Map.get`. -/
def lookupEntry {α : Type} (l : List (String × α)) (k : String) : Option α :=
  (l.find? (fun p => p.1 = k)).map (fun p => p.2)

/-- `Map.delete`. -/
def eraseEntry {α : Type} (l : List (String × α)) (k : String) : List (String × α) :=
  l.filter (fun p => p.1 != k)

/-- A registry participant (the object built by `RoomManager.createUser`).
`gender` and `interest` are absent (`undefined`) until `updateProfile` sets
them; all other fields are present from creation (`roomId`/`lat`/`lon`/`radius`
start as `null`). -/
structure User where
  id : String
  username : String
  avatar : Nat
  roomId : Option String
  lat : Option ℚ
  lon : Option ℚ
  radius : Option ℚ
  status : Status
  gender : Option String
  interest : Option String
  joinedAt : Nat
deriving DecidableEq, Repr

/-- A room member is a reference: `room.users` aliases the registry user
objects (or the catalog bot objects), so mutation must be routed through the
owning collection. -/
inductive MemberRef
  | user (id : String)
  | bot (id : String)
deriving DecidableEq, Repr

def memberId : MemberRef → String
  | .user i => i
  | .bot i => i

/-- Room type strings: `'private'` and `'private_bot'` are the only kinds the
source ever creates. -/
inductive RoomType
  | privateRoom
  | privateBot
deriving DecidableEq, Repr

structure Room where
  id : String
  users : List MemberRef
  createdAt : Nat
  type : RoomType
  botId : Option String
deriving DecidableEq, Repr

/-- A catalog bot (BotManager.js).  `roomIdField` models the `roomId`
property that `leaveRoom` can write onto the catalog object: `none` is the
initial absent (`undefined`) state, `some none` is a written `null`, and
`some (some r)` would be a written room id.  The free-form `personality`
prompt is carried as opaque text (it is consumed only by the external
generator and never branched on), so the long catalog prompts are abbreviated. -/
structure Bot where
  id : String
  username : String
  avatar : String
  gender : String
  lat : Option ℚ
  lon : Option ℚ
  status : Status
  personality : String
  roomIdField : Option (Option String)
deriving DecidableEq, Repr

/-- The three catalog personas of BotManager.js. -/
def initialBots : List Bot :=
  [ ⟨"bot-rohan", "Rohan", "😎", "MALE", none, none, .AVAILABLE,
      "street-smart desi persona prompt", none⟩,
    ⟨"bot-priya", "Priya", "🌸", "FEMALE", none, none, .AVAILABLE,
      "chill vibey persona prompt", none⟩,
    ⟨"bot-vikram", "Vikram", "🤔", "MALE", none, none, .AVAILABLE,
      "sarcastic witty persona prompt", none⟩ ]

/-- Combined mutable state: the RoomManager singleton's two maps plus the
BotManager catalog (which RoomManager reaches through shared references). -/
structure RMState where
  rooms : List (String × Room)
  users : List (String × User)
  bots : List Bot
deriving DecidableEq, Repr

def initialState : RMState := ⟨[], [], initialBots⟩

def lookupUser (s : RMState) (socketId : String) : Option User :=
  lookupEntry s.users socketId

def lookupRoom (s : RMState) (roomId : String) : Option Room :=
  lookupEntry s.rooms roomId

/-- `BotManager.getBotById`. -/
def getBotById (s : RMState) (botId : String) : Option Bot :=
  s.bots.find? (fun b => b.id = botId)

/-- `RoomManager.createUser`.  The generated username, the `Math.random` roll
for the avatar and `Date.now()` are explicit arguments; `avatar` is
`Math.floor(Math.random() * 10) + 1`, modelled as `avatarRoll % 10 + 1`.
The record is installed unconditionally (`this.users.set(socketId, user)`),
with no check for an existing record under the same key. -/
def createUser (s : RMState) (socketId username : String) (avatarRoll now : Nat) :
    User × RMState :=
  let user : User :=
    ⟨socketId, username, avatarRoll % 10 + 1, none, none, none, none, .AVAILABLE,
      none, none, now⟩
  (user, { s with users := setEntry s.users socketId user })

/-- `RoomManager.registerLocation`: sets the three location fields and forces
`status` to `AVAILABLE`; `roomId` is not touched. -/
def registerLocation (s : RMState) (socketId : String) (lat lon radius : ℚ) :
    Option User × RMState :=
  match lookupUser s socketId with
  | none => (none, s)
  | some user =>
    let user' := { user with lat := some lat, lon := some lon, radius := some radius,
                             status := .AVAILABLE }
    (some user', { s with users := setEntry s.users socketId user' })

/-- `RoomManager.updateProfile`: each field is applied only when truthy. -/
def updateProfile (s : RMState) (socketId : String)
    (username gender interest : Option String) : Option User × RMState :=
  match lookupUser s socketId with
  | none => (none, s)
  | some u =>
    let u1 := if truthyS username then { u with username := username.getD "" } else u
    let u2 := if truthyS gender then { u1 with gender := gender } else u1
    let u3 := if truthyS interest then { u2 with interest := interest } else u2
    (some u3, { s with users := setEntry s.users socketId u3 })

/-- One side of the compatibility check in `findRealMatch`:
`x.interest === 'ANY' || x.interest === y.gender`.  JS `===` on two absent
(`undefined`) fields is true, which `Option` equality reproduces
(`none = none`). -/
def sideMatches (interest gender : Option String) : Bool :=
  interest == some "ANY" || interest == gender

/-- `RoomManager.findRealMatch`.  The uniform random choice
`potentialMatches[Math.floor(Math.random() * length)]` is modelled by the
explicit index roll `pick`, reduced modulo the number of candidates. -/
def findRealMatch (s : RMState) (socketId : String) (pick : Nat) : Option User :=
  match lookupUser s socketId with
  | none => none
  | some currentUser =>
    let potentialMatches := s.users.filterMap fun p =>
      if p.1 = socketId then none
      else if p.2.status ≠ Status.AVAILABLE then none
      else if sideMatches currentUser.interest p.2.gender &&
              sideMatches p.2.interest currentUser.gender then some p.2
      else none
    if potentialMatches.length > 0 then
      potentialMatches[pick % potentialMatches.length]?
    else none

/-- `BotManager.getBots`: every catalog bot, annotated with a synthetic
coordinate near the caller and the synthetic distance `100 + index * 50`. -/
def getBots (s : RMState) (userLat userLon : ℚ) : List (Bot × ℤ) :=
  s.bots.enum.map fun p =>
    ({ p.2 with lat := some (userLat + 1/1000), lon := some (userLon + 1/1000) },
      100 + 50 * (p.1 : ℤ))

/-- Avatar values: registry users carry a number 1–10, catalog bots carry an
emoji string; both flow into the same payload field. -/
inductive AvatarVal
  | num (n : Nat)
  | emoji (s : String)
deriving DecidableEq, Repr

/-- An element of the `nearby_users` payload built by `findNearbyUsers`. -/
structure NearbyEntry where
  id : String
  username : String
  avatar : AvatarVal
  distance : ℤ
  isBot : Bool
deriving DecidableEq, Repr

def mkRealEntry (u : User) (d : ℚ) : NearbyEntry :=
  ⟨u.id, u.username, .num u.avatar, jsRound d, false⟩

def mkBotEntry (b : Bot) (i : Nat) : NearbyEntry :=
  ⟨b.id, b.username, .emoji b.avatar, 100 + 50 * (i : ℤ), true⟩

/-- The real-participant entries accumulated by the loop in
`findNearbyUsers`: skip the caller, non-`AVAILABLE` users and users without
truthy coordinates; keep those within the caller's radius (`distance <=
currentUser.radius`; a `null` radius coerces to `0` under JS `<=`). -/
def realNearby (dist : ℚ → ℚ → ℚ → ℚ → ℚ) (s : RMState) (cu : User)
    (socketId : String) : List NearbyEntry :=
  s.users.filterMap fun p =>
    if p.1 = socketId then none
    else if p.2.status ≠ Status.AVAILABLE then none
    else if ¬(truthyQ p.2.lat ∧ truthyQ p.2.lon) then none
    else
      let d := dist (cu.lat.getD 0) (cu.lon.getD 0) (p.2.lat.getD 0) (p.2.lon.getD 0)
      if d ≤ cu.radius.getD 0 then some (mkRealEntry p.2 d) else none

/-- The bot entries appended by `findNearbyUsers` (projection of `getBots`). -/
def botNearby (s : RMState) (userLat userLon : ℚ) : List NearbyEntry :=
  (getBots s userLat userLon).map fun p => ⟨p.1.id, p.1.username, .emoji p.1.avatar, p.2, true⟩

/-- Comparator order of `nearbyUsers.sort((a, b) => a.distance - b.distance)`. -/
def entryLE (a b : NearbyEntry) : Prop := a.distance ≤ b.distance

instance : DecidableRel entryLE := fun a b => inferInstanceAs (Decidable (a.distance ≤ b.distance))

instance : IsTotal NearbyEntry entryLE := ⟨fun a b => le_total a.distance b.distance⟩

instance : IsTrans NearbyEntry entryLE := ⟨fun _ _ _ h h' => le_trans h h'⟩

/-- `RoomManager.findNearbyUsers`.  The geo utility
`getDistanceFromLatLonInMeters` (src/utils/geo.js) is not under src/, so the
distance function is an explicit parameter (see `modelDist`).  V8's
`Array.prototype.sort` is a stable sort; with the numeric ascending
comparator its result coincides with a stable insertion sort under `entryLE`. -/
def findNearbyUsers (dist : ℚ → ℚ → ℚ → ℚ → ℚ) (s : RMState) (socketId : String) :
    List NearbyEntry :=
  match lookupUser s socketId with
  | none => []
  | some currentUser =>
    if ¬(truthyQ currentUser.lat ∧ truthyQ currentUser.lon) then []
    else
      List.insertionSort entryLE
        (realNearby dist s currentUser socketId ++
          botNearby s (currentUser.lat.getD 0) (currentUser.lon.getD 0))

/-- Modelled from the spec: `getDistanceFromLatLonInMeters` (src/utils/geo.js)
is missing from src/; the spec describes a pure great-circle distance in
meters.  All proved properties are independent of the metric, and this
rational stand-in (≈ meters per degree times the L1 coordinate difference)
is used only to evaluate concrete scenarios; like any distance it assigns
equal values to coincident coordinate pairs. -/
def ratAbs (q : ℚ) : ℚ := if q < 0 then -q else q

def modelDist (lat1 lon1 lat2 lon2 : ℚ) : ℚ :=
  111194 * (ratAbs (lat2 - lat1) + ratAbs (lon2 - lon1))

/-- Result of `createPrivateRoom`: a room, a `null` denial, or the TypeError
raised in the agent branch when the initiator is missing (the room has
already been inserted at that point). -/
inductive AllocResult
  | ok (room : Room)
  | denied
  | crashed
deriving DecidableEq, Repr

/-- `RoomManager.createPrivateRoom`.  The fresh uuid and `Date.now()` are
explicit arguments.  If the counterpart id belongs to a catalog bot, the
agent branch runs with no validation of the initiator: the room is inserted
first, then the initiator is flipped to `BUSY` (a missing initiator raises a
TypeError at that assignment).  Otherwise both parties must exist and be
`AVAILABLE`, and denial changes no state. -/
def createPrivateRoom (s : RMState) (userAId userBId roomId : String) (now : Nat) :
    AllocResult × RMState :=
  let userA? := lookupUser s userAId
  match getBotById s userBId with
  | some bot =>
    let newRoom : Room := ⟨roomId, [.user userAId, .bot bot.id], now, .privateBot, some bot.id⟩
    let s1 := { s with rooms := setEntry s.rooms roomId newRoom }
    match userA? with
    | none => (.crashed, s1)
    | some ua =>
      let ua' := { ua with roomId := some roomId, status := .BUSY }
      (.ok newRoom, { s1 with users := setEntry s1.users userAId ua' })
  | none =>
    match userA?, lookupUser s userBId with
    | some ua, some ub =>
      if ua.status = Status.AVAILABLE ∧ ub.status = Status.AVAILABLE then
        let newRoom : Room := ⟨roomId, [.user userAId, .user userBId], now, .privateRoom, none⟩
        let s1 := { s with rooms := setEntry s.rooms roomId newRoom }
        let ua' := { ua with roomId := some roomId, status := .BUSY }
        let ub' := { ub with roomId := some roomId, status := .BUSY }
        let s2 := { s1 with users := setEntry s1.users userAId ua' }
        let s3 := { s2 with users := setEntry s2.users userBId ub' }
        (.ok newRoom, s3)
      else (.denied, s)
    | _, _ => (.denied, s)

/-- The record returned by `leaveRoom` (field `user` is the already-updated
departing participant, `remainingUsers` the post-filter membership). -/
structure LeaveInfo where
  roomId : String
  user : User
  roomDestroyed : Bool
  remainingUsers : List MemberRef
  wasPrivate : Bool
deriving DecidableEq, Repr

/-- The counterpart reset inside `leaveRoom`.  The source guards it with
`if (!otherUser.isBot)`, but neither registry users nor catalog bot objects
carry an `isBot` field (only the derived nearby payloads do), so the guard is
always passed: a user counterpart is reset in the registry, and a catalog bot
gets `roomId = null` and `status = 'AVAILABLE'` written onto it. -/
def resetOther (s : RMState) : MemberRef → RMState
  | .user oid =>
    match lookupUser s oid with
    | none => s
    | some ou =>
      let ou' := { ou with roomId := none, status := .AVAILABLE }
      { s with users := setEntry s.users oid ou' }
  | .bot bid =>
    { s with bots := s.bots.map fun b =>
        if b.id = bid then { b with status := .AVAILABLE, roomIdField := some none } else b }

/-- `RoomManager.leaveRoom`.  A participant without a user record or without
a `roomId` yields `null` with no state change; a dangling `roomId` whose room
is gone also yields `null` (leaving the participant untouched).  Otherwise
the member list is filtered, the departing participant is reset, and —
since every created room is `private`/`private_bot` — the room is always
destroyed, resetting the remaining counterpart via `resetOther` (the
source's fallthrough for other room kinds is unreachable). -/
def leaveRoom (s : RMState) (socketId : String) : Option LeaveInfo × RMState :=
  match lookupUser s socketId with
  | none => (none, s)
  | some user =>
    match user.roomId with
    | none => (none, s)
    | some rid =>
      match lookupRoom s rid with
      | none => (none, s)
      | some room =>
        let newMembers := room.users.filter fun m => memberId m != socketId
        let user' := { user with roomId := none, status := .AVAILABLE }
        let s1 := { s with users := setEntry s.users socketId user',
                           rooms := setEntry s.rooms rid ({ room with users := newMembers }) }
        match newMembers with
        | [] =>
          (some ⟨rid, user', true, [], false⟩,
            { s1 with rooms := eraseEntry s1.rooms rid })
        | other :: _ =>
          let s2 := resetOther s1 other
          (some ⟨rid, user', true, [other], true⟩,
            { s2 with rooms := eraseEntry s2.rooms rid })

/-- `RoomManager.removeUser`: leave any room, then delete the record. -/
def removeUser (s : RMState) (socketId : String) : RMState :=
  let s1 := (leaveRoom s socketId).2
  { s1 with users := eraseEntry s1.users socketId }

/-- A queued `generateResponse` request. -/
structure Request where
  botId : String
  userMessage : String
deriving DecidableEq, Repr

/-- The payload a request resolves with on the non-null path. -/
structure Reply where
  text : String
  delay : Nat
deriving DecidableEq, Repr

/-- Outcome of one call to the external generator: a thrown error, or a
completion whose first choice content is absent (`none`) or a string. -/
inductive GenOutcome
  | err
  | ok (content : Option String)
deriving DecidableEq, Repr

/-- How the request's promise ends: resolved with `some reply` or `null`, or
never resolved (`stuck`: the `catch` block itself throws on an unknown bot). -/
inductive Resolution
  | resolved (r : Option Reply)
  | stuck
deriving DecidableEq, Repr

/-- The fallback `chatCompletion.choices[0]?.message?.content || "..."`:
absent or empty content falls back to the literal placeholder. -/
def jsOrPlaceholder : Option String → String
  | none => "..."
  | some s => if s = "" then "..." else s

/-- One iteration of `BotManager.processQueue` on a dequeued request.
`groqInit` is whether `initialize` installed a client; `outcome` is what the
external generator does for this request.  The typing delay
`Math.max(1000, userMessage.length * 20)` is computed up front; an
uninitialized client or a generator error is caught and resolves `null`;
otherwise the content (or the `"..."` placeholder) resolves with the delay.
A request naming an unknown bot makes the `catch` logging itself throw, so
that promise is never resolved. -/
def processQueueStep (bots : List Bot) (groqInit : Bool) (outcome : GenOutcome)
    (req : Request) : Resolution :=
  match bots.find? (fun b => b.id = req.botId) with
  | none => .stuck
  | some _bot =>
    let delay := max 1000 (req.userMessage.length * 20)
    if groqInit = false then .resolved none
    else
      match outcome with
      | .err => .resolved none
      | .ok content => .resolved (some ⟨jsOrPlaceholder content, delay⟩)

/-- The strictly sequential queue: the `finally` block always clears
`isProcessing` and re-enters `processQueue`, so the requests are served one
at a time in FIFO order, each with its own generator outcome, and no single
failure stops the ones behind it. -/
def processQueueRun (bots : List Bot) (groqInit : Bool) :
    List (Request × GenOutcome) → List Resolution
  | [] => []
  | (req, outcome) :: rest =>
    processQueueStep bots groqInit outcome req :: processQueueRun bots groqInit rest

/-- The generic placeholder that server.js shows in place of an agent's
catalog name. -/
def maskedName : String := "Stranger"

/-- The masking applied in the `start_matching` handler:
`u.id.startsWith('bot-') ? 'Stranger' : u.username`. -/
def maskUsername (id username : String) : String :=
  if id.startsWith "bot-" then maskedName else username

/-- The member fields that flow into `room_joined`/`room_users` payloads. -/
structure MemberView where
  id : String
  username : String
  avatar : AvatarVal
deriving DecidableEq, Repr

/-- Dereference a room member into the fields the payloads read (JS reads
them straight off the aliased object; an unresolvable reference is dropped). -/
def memberView (s : RMState) : MemberRef → Option MemberView
  | .user i => (lookupUser s i).map fun u => ⟨u.id, u.username, .num u.avatar⟩
  | .bot i => (getBotById s i).map fun b => ⟨b.id, b.username, .emoji b.avatar⟩

/-- `uiUsers` in the `start_matching` handler: the room members with bot ids
masked to the placeholder, used for its `room_joined` and `room_users`. -/
def uiUsers (s : RMState) (room : Room) : List MemberView :=
  (room.users.filterMap (memberView s)).map fun m =>
    { m with username := maskUsername m.id m.username }

/-- The `room_users` payload of the legacy `request_chat` handler: the raw
member objects with no masking. -/
def requestChatRoomUsers (s : RMState) (room : Room) : List MemberView :=
  room.users.filterMap (memberView s)

/-- The fields of a `receive_message` payload the claims inspect. -/
structure ChatMessage where
  userId : String
  username : String
  avatar : AvatarVal
  text : String
deriving DecidableEq, Repr

/-- The greeting `receive_message` built in the legacy `request_chat`
handler: `username: bot.username` — the catalog name, unmasked. -/
def requestChatGreeting (b : Bot) (text : String) : ChatMessage :=
  ⟨b.id, b.username, .emoji b.avatar, text⟩

/-- The greeting `receive_message` built in the `start_matching` bot branch:
`username: 'Stranger'`. -/
def startMatchingGreeting (botId : String) (avatar : AvatarVal) (text : String) : ChatMessage :=
  ⟨botId, maskedName, avatar, text⟩

/-- The bot reply `receive_message` built in the `send_message` handler:
`username: 'Stranger'`. -/
def sendMessageBotReply (b : Bot) (text : String) : ChatMessage :=
  ⟨b.id, maskedName, .emoji b.avatar, text⟩

/-- What the `register_location` handler does besides mutating state. -/
inductive HandlerOutcome
  | errorEvent (message : String)
  | success (user : User) (nearby : List NearbyEntry)
  | silent
deriving DecidableEq, Repr

/-- The `register_location` handler in server.js: payload fields that are
absent or `0` fail the `!lat || !lon || !radius` truthiness check and are
rejected with an `error` event and no state change; otherwise the registry
is updated and `registration_success` plus the fresh nearby list are emitted
(nothing is emitted for an unknown connection). -/
def registerLocationHandler (dist : ℚ → ℚ → ℚ → ℚ → ℚ) (s : RMState) (socketId : String)
    (lat lon radius : Option ℚ) : HandlerOutcome × RMState :=
  if ¬(truthyQ lat ∧ truthyQ lon ∧ truthyQ radius) then
    (.errorEvent "Invalid location data", s)
  else
    match registerLocation s socketId (lat.getD 0) (lon.getD 0) (radius.getD 0) with
    | (none, s') => (.silent, s')
    | (some u, s') => (.success u (findNearbyUsers dist s' socketId), s')

/-- The spec's per-participant invariant: `status == BUSY` iff `roomId != null`. -/
def userOK (u : User) : Prop := u.status = Status.BUSY ↔ u.roomId ≠ none

instance (u : User) : Decidable (userOK u) := inferInstanceAs (Decidable (_ ↔ _))

/-- The registry invariant over every participant in the users map. -/
def registryInv (s : RMState) : Prop := ∀ p ∈ s.users, userOK p.2

instance (s : RMState) : Decidable (registryInv s) :=
  inferInstanceAs (Decidable (∀ p ∈ s.users, userOK p.2))

/-- Every reachable state keys each user record by its own `id` (createUser
uses the socket id both as the key and the `id` field, and no operation
rewrites `id`). -/
def keysConsistent (s : RMState) : Prop := ∀ p ∈ s.users, p.2.id = p.1

instance (s : RMState) : Decidable (keysConsistent s) :=
  inferInstanceAs (Decidable (∀ p ∈ s.users, p.2.id = p.1))

/-- Abbreviation for statements: a participant reset to `AVAILABLE` with no
room, the record shape `leaveRoom` writes back. -/
def resetUser (u : User) : User := { u with roomId := none, status := Status.AVAILABLE }

/-- Abbreviation for statements: the intermediate state inside `leaveRoom`
after the member filter and the departing participant's reset, before the
counterpart reset and the room deletion. -/
def leaveRoomMid (s : RMState) (uid rid : String) (u : User) (room : Room)
    (ms : List MemberRef) : RMState :=
  { s with users := setEntry s.users uid (resetUser u),
           rooms := setEntry s.rooms rid ({ room with users := ms }) }

/-- Scenario state: one fresh participant `a`. -/
def demoA : RMState := (createUser initialState "a" "Alpha Ant" 3 0).2

/-- Scenario state: two fresh participants `a` and `b`, no profile fields set. -/
def demoAB : RMState := (createUser demoA "b" "Beta Bee" 5 0).2

/-- Scenario state: `a` and `b` paired in private room `r1` (both `BUSY`). -/
def demoPaired : RMState := (createPrivateRoom demoAB "a" "b" "r1" 10).2

/-- Scenario state: `a` alone in agent room `rb` with `bot-rohan`. -/
def demoBotRoom : RMState := (createPrivateRoom demoA "a" "bot-rohan" "rb" 10).2

/-- Scenario caller: `a` registered at (10, 10) with a 500 km radius. -/
def tieCaller : User :=
  ⟨"a", "Alpha", 2, none, some 10, some 10, some 500000, .AVAILABLE, none, none, 0⟩

/-- Scenario participant `b`, registered at (11, 11). -/
def tieB : User :=
  ⟨"b", "Beta", 3, none, some 11, some 11, some 500000, .AVAILABLE, none, none, 0⟩

/-- Scenario participant `c`, registered at the identical coordinate
(11, 11), hence at the same distance from the caller as `b` under any
metric. -/
def tieC : User :=
  ⟨"c", "Gamma", 4, none, some 11, some 11, some 500000, .AVAILABLE, none, none, 0⟩

/-- Scenario state with caller `a` and the two equidistant participants
`b` and `c` (see `tieState_reachable` for the operation chain producing it). -/
def tieState : RMState := ⟨[], [("a", tieCaller), ("b", tieB), ("c", tieC)], initialBots⟩

section MapLemmas

variable {α : Type}

theorem mem_setEntry {l : List (String × α)} {k : String} {v : α} {p : String × α}
    (hp : p ∈ setEntry l k v) : p ∈ l ∨ p = (k, v) := by
  unfold setEntry at hp
  split at hp
  · rcases List.mem_map.mp hp with ⟨q, hq, hfq⟩
    by_cases hqk : q.1 = k
    · right
      simp only [hqk, if_pos] at hfq
      exact hfq.symm
    · left
      simp only [hqk, if_neg, not_false_iff] at hfq
      exact hfq ▸ hq
  · rcases List.mem_append.mp hp with h | h
    · exact .inl h
    · right; simpa using h

theorem forall_mem_setEntry {P : String × α → Prop} {l : List (String × α)} {k : String}
    {v : α} (hl : ∀ p ∈ l, P p) (hv : P (k, v)) : ∀ p ∈ setEntry l k v, P p := by
  intro p hp
  rcases mem_setEntry hp with h | h
  · exact hl p h
  · exact h ▸ hv

theorem mem_eraseEntry {l : List (String × α)} {k : String} {p : String × α}
    (hp : p ∈ eraseEntry l k) : p ∈ l := (List.mem_filter.mp hp).1

theorem mem_of_lookupEntry {l : List (String × α)} {k : String} {v : α}
    (h : lookupEntry l k = some v) : (k, v) ∈ l := by
  unfold lookupEntry at h
  rcases Option.map_eq_some'.mp h with ⟨p, hfind, hv⟩
  have hmem := List.mem_of_find?_eq_some hfind
  have hkey : p.1 = k := by simpa using List.find?_some hfind
  have hp : p = (k, v) := by
    cases p
    simp_all
  exact hp ▸ hmem

theorem find?_map_setValue (l : List (String × α)) (k : String) (v : α)
    (h : l.any (fun p => p.1 = k) = true) :
    (l.map (fun p => if p.1 = k then (k, v) else p)).find? (fun p => p.1 = k)
      = some (k, v) := by
  induction l with
  | nil => simp at h
  | cons q l ih =>
    by_cases hq : q.1 = k
    · simp [List.find?_cons, hq]
    · have h' : l.any (fun p => p.1 = k) = true := by simpa [hq] using h
      simpa [List.find?_cons, hq] using ih h'

theorem find?_map_setValue_ne (l : List (String × α)) (k k' : String) (v : α)
    (hne : k' ≠ k) :
    (l.map (fun p => if p.1 = k then (k, v) else p)).find? (fun p => p.1 = k')
      = l.find? (fun p => p.1 = k') := by
  induction l with
  | nil => simp
  | cons q l ih =>
    rw [List.map_cons]
    by_cases hq' : q.1 = k'
    · have hqk : ¬(q.1 = k) := by rw [hq']; exact hne
      rw [List.find?_cons_of_pos _ (by rw [if_neg hqk]; simpa using hq'),
          List.find?_cons_of_pos _ (by simpa using hq')]
      simp [hqk]
    · by_cases hq : q.1 = k
      · rw [List.find?_cons_of_neg _ (by simp [hq]; exact fun h => hne h.symm),
            List.find?_cons_of_neg _ (by simpa using hq')]
        exact ih
      · rw [List.find?_cons_of_neg _ (by simp [hq, hq']),
            List.find?_cons_of_neg _ (by simpa using hq')]
        exact ih

theorem lookupEntry_setEntry_self (l : List (String × α)) (k : String) (v : α) :
    lookupEntry (setEntry l k v) k = some v := by
  unfold setEntry lookupEntry
  split
  case isTrue h =>
    rw [find?_map_setValue l k v h]
    rfl
  case isFalse h =>
    have hnone : l.find? (fun p => p.1 = k) = none := by
      rw [List.find?_eq_none]
      intro p hp
      simp only [List.any_eq_true, not_exists, not_and] at h
      by_cases hpk : p.1 = k
      · exact absurd (by simpa [hpk]) (by simpa using h p hp)
      · simp [hpk]
    rw [List.find?_append, hnone]
    simp

theorem lookupEntry_setEntry_ne (l : List (String × α)) (k k' : String) (v : α)
    (hne : k' ≠ k) : lookupEntry (setEntry l k v) k' = lookupEntry l k' := by
  unfold setEntry lookupEntry
  split
  · rw [find?_map_setValue_ne l k k' v hne]
  · have hk : ¬(k = k') := fun h => hne h.symm
    rw [List.find?_append]
    cases hfind : l.find? (fun p => p.1 = k') <;> simp [hk]

theorem lookupEntry_eraseEntry_self (l : List (String × α)) (k : String) :
    lookupEntry (eraseEntry l k) k = none := by
  unfold lookupEntry eraseEntry
  have hnone : (l.filter (fun p => p.1 != k)).find? (fun p => p.1 = k) = none := by
    rw [List.find?_eq_none]
    intro p hp
    have := (List.mem_filter.mp hp).2
    simpa using this
  rw [hnone]
  rfl

theorem lookupEntry_eraseEntry_ne (l : List (String × α)) (k k' : String)
    (hne : k' ≠ k) : lookupEntry (eraseEntry l k) k' = lookupEntry l k' := by
  unfold lookupEntry eraseEntry
  induction l with
  | nil => rfl
  | cons q l ih =>
    rw [List.filter_cons]
    by_cases hq : q.1 = k
    · have hq' : ¬(q.1 = k') := by rw [hq]; exact fun h => hne h.symm
      rw [if_neg (by simp [hq]),
          List.find?_cons_of_neg _ (by simpa using hq')]
      exact ih
    · rw [if_pos (by simp [hq])]
      by_cases hq' : q.1 = k'
      · rw [List.find?_cons_of_pos _ (by simpa using hq'),
            List.find?_cons_of_pos _ (by simpa using hq')]
      · rw [List.find?_cons_of_neg _ (by simpa using hq'),
            List.find?_cons_of_neg _ (by simpa using hq')]
        exact ih

end MapLemmas

theorem resetOther_rooms (s : RMState) (m : MemberRef) :
    (resetOther s m).rooms = s.rooms := by
  cases m with
  | user oid =>
    simp only [resetOther]
    cases hlk : lookupUser s oid <;> simp [hlk]
  | bot bid => rfl

theorem lookupUser_resetOther_ne (s : RMState) (m : MemberRef) (uid : String)
    (h : memberId m ≠ uid) :
    lookupUser (resetOther s m) uid = lookupUser s uid := by
  cases m with
  | user oid =>
    simp only [resetOther]
    cases hlk : lookupUser s oid with
    | none => simp [hlk]
    | some ou =>
      simp only [hlk]
      unfold lookupUser
      exact lookupEntry_setEntry_ne _ _ _ _ (fun he => h (by simpa [memberId] using he.symm))
  | bot bid => rfl

theorem registryInv_resetOther (s : RMState) (hinv : registryInv s) (m : MemberRef) :
    registryInv (resetOther s m) := by
  cases m with
  | user oid =>
    simp only [resetOther]
    cases hlk : lookupUser s oid with
    | none => exact hinv
    | some ou =>
      intro p hp
      simp only [RMState.mk.injEq] at hp
      exact forall_mem_setEntry hinv (by simp [userOK]) p hp
  | bot bid => exact hinv

theorem registryInv_createUser (s : RMState) (hinv : registryInv s)
    (cid cname : String) (roll cnow : Nat) :
    registryInv (createUser s cid cname roll cnow).2 := by
  intro p hp
  simp only [createUser] at hp
  exact forall_mem_setEntry hinv (by simp [userOK]) p hp

theorem registryInv_updateProfile (s : RMState) (hinv : registryInv s)
    (uid : String) (un ug uin : Option String) :
    registryInv (updateProfile s uid un ug uin).2 := by
  unfold updateProfile
  cases hlk : lookupUser s uid with
  | none => exact hinv
  | some u =>
    have hu : userOK u := hinv (uid, u) (mem_of_lookupEntry hlk)
    intro p hp
    dsimp only at hp
    refine forall_mem_setEntry hinv ?_ p hp
    unfold userOK at hu ⊢
    split_ifs <;> simpa using hu

theorem registryInv_registerLocation (s : RMState) (hinv : registryInv s)
    (gid : String) (la lo ra : ℚ)
    (hfree : ∀ u, lookupUser s gid = some u → u.roomId = none) :
    registryInv (registerLocation s gid la lo ra).2 := by
  unfold registerLocation
  cases hlk : lookupUser s gid with
  | none => exact hinv
  | some u =>
    have hnone : u.roomId = none := hfree u hlk
    intro p hp
    dsimp only at hp
    exact forall_mem_setEntry hinv (by simp [userOK, hnone]) p hp

theorem registryInv_createPrivateRoom (s : RMState) (hinv : registryInv s)
    (aid bid rid : String) (rnow : Nat) :
    registryInv (createPrivateRoom s aid bid rid rnow).2 := by
  unfold createPrivateRoom
  cases hbot : getBotById s bid with
  | some bot =>
    cases hua : lookupUser s aid with
    | none =>
      intro p hp
      dsimp only at hp
      exact hinv p hp
    | some ua =>
      intro p hp
      dsimp only at hp
      exact forall_mem_setEntry hinv (by simp [userOK]) p hp
  | none =>
    cases hua : lookupUser s aid with
    | none => exact hinv
    | some ua =>
      cases hub : lookupUser s bid with
      | none => exact hinv
      | some ub =>
        dsimp only
        by_cases hav : ua.status = Status.AVAILABLE ∧ ub.status = Status.AVAILABLE
        · rw [if_pos hav]
          intro p hp
          dsimp only at hp
          refine forall_mem_setEntry (forall_mem_setEntry hinv ?_) ?_ p hp
          · simp [userOK]
          · simp [userOK]
        · rw [if_neg hav]
          exact hinv

theorem registryInv_leaveRoom (s : RMState) (hinv : registryInv s) (lid : String) :
    registryInv (leaveRoom s lid).2 := by
  unfold leaveRoom
  cases hlu : lookupUser s lid with
  | none => exact hinv
  | some user =>
    dsimp only
    cases hrid : user.roomId with
    | none => exact hinv
    | some rid =>
      dsimp only
      cases hroom : lookupRoom s rid with
      | none => exact hinv
      | some room =>
        dsimp only
        have hs1 : ∀ p ∈ setEntry s.users lid ({ user with roomId := none, status := Status.AVAILABLE }), userOK p.2 :=
          forall_mem_setEntry hinv (by simp [userOK])
        cases hmem : room.users.filter (fun m => memberId m != lid) with
        | nil =>
          intro p hp
          dsimp only at hp
          exact hs1 p hp
        | cons other rest =>
          intro p hp
          dsimp only at hp
          exact registryInv_resetOther _ (fun q hq => hs1 q hq) other p hp

theorem registryInv_removeUser (s : RMState) (hinv : registryInv s) (did : String) :
    registryInv (removeUser s did) := by
  unfold removeUser
  intro p hp
  dsimp only at hp
  exact registryInv_leaveRoom s hinv did p (mem_eraseEntry hp)

/-- C1 counterexample: the claimed biconditional fails after
`registerLocation` on a participant currently in a room.  In `demoPaired`,
participant `a` is `BUSY` in room `r1`; re-registering a location forces
`status = AVAILABLE` while `roomId` stays `some "r1"`, so the registry
invariant does not hold in the resulting state. -/
theorem c1_invariant_counterexample :
    (lookupUser (registerLocation demoPaired "a" 1 2 3).2 "a").map
        (fun u => (u.status, u.roomId)) = some (Status.AVAILABLE, some "r1") ∧
    ¬ registryInv (registerLocation demoPaired "a" 1 2 3).2 :=
  ⟨by decide, by decide⟩

/-- C1 (amended): the `status == BUSY ↔ roomId ≠ null` biconditional is
preserved by `createUser`, `updateProfile`, `createPrivateRoom`, `leaveRoom`
and `removeUser`; `registerLocation` forces `status` to `AVAILABLE` without
clearing `roomId`, so it preserves the biconditional only when the
participant it touches is not currently in a room. -/
theorem c1_invariant_amended
    (s : RMState) (hinv : registryInv s)
    (cid cname : String) (roll cnow : Nat)
    (uid : String) (un ug uin : Option String)
    (aid bid rid : String) (rnow : Nat)
    (lid did gid : String) (la lo ra : ℚ) :
    registryInv (createUser s cid cname roll cnow).2 ∧
    registryInv (updateProfile s uid un ug uin).2 ∧
    registryInv (createPrivateRoom s aid bid rid rnow).2 ∧
    registryInv (leaveRoom s lid).2 ∧
    registryInv (removeUser s did) ∧
    ((∀ u, lookupUser s gid = some u → u.roomId = none) →
      registryInv (registerLocation s gid la lo ra).2) :=
  ⟨registryInv_createUser s hinv cid cname roll cnow,
   registryInv_updateProfile s hinv uid un ug uin,
   registryInv_createPrivateRoom s hinv aid bid rid rnow,
   registryInv_leaveRoom s hinv lid,
   registryInv_removeUser s hinv did,
   fun hfree => registryInv_registerLocation s hinv gid la lo ra hfree⟩

/-- C1 witness: the amended invariant preservation instantiated on the
concrete paired state. -/
theorem c1_invariant_witness :
    registryInv demoPaired ∧
    (registryInv (createUser demoPaired "x" "Xe No" 1 2).2 ∧
     registryInv (updateProfile demoPaired "a" (some "Al") none none).2 ∧
     registryInv (createPrivateRoom demoPaired "a" "b" "r9" 3).2 ∧
     registryInv (leaveRoom demoPaired "a").2 ∧
     registryInv (removeUser demoPaired "a") ∧
     ((∀ u, lookupUser demoPaired "b" = some u → u.roomId = none) →
       registryInv (registerLocation demoPaired "b" 1 2 3).2)) :=
  ⟨by decide,
   c1_invariant_amended demoPaired (by decide) "x" "Xe No" 1 2 "a" (some "Al")
     none none "a" "b" "r9" 3 "a" "a" "b" 1 2 3⟩

/-- C2 counterexample: allocation with an agent counterpart performs no
validation of the initiator.  In `demoPaired` participant `a` is `BUSY`,
yet `createPrivateRoom "a" "bot-rohan"` is not denied: it creates the agent
room and mutates the registry. -/
theorem c2_allocation_counterexample :
    (lookupUser demoPaired "a").map (fun u => u.status) = some Status.BUSY ∧
    (createPrivateRoom demoPaired "a" "bot-rohan" "r2" 20).1 =
      AllocResult.ok ⟨"r2", [.user "a", .bot "bot-rohan"], 20, .privateBot, some "bot-rohan"⟩ ∧
    (createPrivateRoom demoPaired "a" "bot-rohan" "r2" 20).2 ≠ demoPaired :=
  ⟨by decide, by decide, by decide⟩

/-- C2 (amended): with a real counterpart, `createPrivateRoom` re-validates
both parties (existence and `AVAILABLE`) and denial leaves the state
unchanged; with an agent counterpart, the initiator is not validated: the
agent room is created even when the initiator is not `AVAILABLE` (and a
missing initiator crashes after the room has been inserted). -/
theorem c2_allocation_amended (s : RMState) (aid bid rid : String) (now : Nat) :
    (getBotById s bid = none → lookupUser s aid = none →
      createPrivateRoom s aid bid rid now = (.denied, s)) ∧
    (getBotById s bid = none → lookupUser s bid = none →
      createPrivateRoom s aid bid rid now = (.denied, s)) ∧
    (∀ ua, getBotById s bid = none → lookupUser s aid = some ua →
      ua.status ≠ Status.AVAILABLE → createPrivateRoom s aid bid rid now = (.denied, s)) ∧
    (∀ ub, getBotById s bid = none → lookupUser s bid = some ub →
      ub.status ≠ Status.AVAILABLE → createPrivateRoom s aid bid rid now = (.denied, s)) ∧
    (∀ ua ub, getBotById s bid = none → lookupUser s aid = some ua →
      lookupUser s bid = some ub → ua.status = Status.AVAILABLE →
      ub.status = Status.AVAILABLE →
      (createPrivateRoom s aid bid rid now).1 =
        .ok ⟨rid, [.user aid, .user bid], now, .privateRoom, none⟩) ∧
    (∀ bot ua, getBotById s bid = some bot → lookupUser s aid = some ua →
      (createPrivateRoom s aid bid rid now).1 =
        .ok ⟨rid, [.user aid, .bot bot.id], now, .privateBot, some bot.id⟩) ∧
    (∀ bot, getBotById s bid = some bot → lookupUser s aid = none →
      (createPrivateRoom s aid bid rid now).1 = .crashed ∧
      lookupRoom (createPrivateRoom s aid bid rid now).2 rid =
        some ⟨rid, [.user aid, .bot bot.id], now, .privateBot, some bot.id⟩) := by
  refine ⟨?_, ?_, ?_, ?_, ?_, ?_, ?_⟩
  · intro hbot hua
    unfold createPrivateRoom
    rw [hbot, hua]
  · intro hbot hub
    unfold createPrivateRoom
    rw [hbot, hub]
    cases lookupUser s aid <;> rfl
  · intro ua hbot hua hstat
    unfold createPrivateRoom
    rw [hbot, hua]
    cases hub : lookupUser s bid with
    | none => rfl
    | some ub =>
      dsimp only
      rw [if_neg (fun h => hstat h.1)]
  · intro ub hbot hub hstat
    unfold createPrivateRoom
    rw [hbot, hub]
    cases hua : lookupUser s aid with
    | none => rfl
    | some ua =>
      dsimp only
      rw [if_neg (fun h => hstat h.2)]
  · intro ua ub hbot hua hub hsa hsb
    unfold createPrivateRoom
    rw [hbot, hua, hub]
    dsimp only
    rw [if_pos ⟨hsa, hsb⟩]
  · intro bot ua hbot hua
    unfold createPrivateRoom
    rw [hbot, hua]
  · intro bot hbot hua
    unfold createPrivateRoom
    rw [hbot, hua]
    exact ⟨rfl, lookupEntry_setEntry_self _ _ _⟩

/-- C2 witness: denial on a busy initiator with a real counterpart, and the
unchecked agent branch, both on the concrete paired state. -/
theorem c2_allocation_witness :
    createPrivateRoom demoPaired "a" "b" "r9" 3 = (.denied, demoPaired) ∧
    (createPrivateRoom demoPaired "a" "bot-priya" "r9" 3).1 =
      .ok ⟨"r9", [.user "a", .bot "bot-priya"], 3, .privateBot, some "bot-priya"⟩ :=
  ⟨(c2_allocation_amended demoPaired "a" "b" "r9" 3).2.2.1
      ⟨"a", "Alpha Ant", 4, some "r1", none, none, none, .BUSY, none, none, 0⟩
      (by decide) (by decide) (by decide),
   (c2_allocation_amended demoPaired "a" "bot-priya" "r9" 3).2.2.2.2.2.1
      ⟨"bot-priya", "Priya", "🌸", "FEMALE", none, none, .AVAILABLE,
        "chill vibey persona prompt", none⟩
      ⟨"a", "Alpha Ant", 4, some "r1", none, none, none, .BUSY, none, none, 0⟩
      (by decide) (by decide)⟩

/-- C6 evaluation at the failing input: the catalog persona starts with no
`roomId` property (`roomIdField = none`); after a human leaves an agent
room, `leaveRoom` has written `roomId = null` (`some none`) and
`status = AVAILABLE` onto the catalog object, because the
`!otherUser.isBot` guard never fires (room members carry no `isBot` field). -/
theorem c6_persona_write_bug :
    (getBotById initialState "bot-rohan").map (fun b => b.roomIdField) = some none ∧
    (getBotById (leaveRoom demoBotRoom "a").2 "bot-rohan").map
        (fun b => (b.status, b.roomIdField)) = some (Status.AVAILABLE, some none) :=
  ⟨by decide, by decide⟩

/-- C7 counterexample: `createUser` on an already-registered connId does not
fail; it silently replaces the record (the map still has one entry, now the
fresh one). -/
theorem c7_createUser_counterexample :
    (lookupUser demoA "a").map (fun u => u.username) = some "Alpha Ant" ∧
    (lookupUser (createUser demoA "a" "New Name" 7 1).2 "a").map
        (fun u => u.username) = some "New Name" ∧
    ((createUser demoA "a" "New Name" 7 1).2).users.length = 1 :=
  ⟨by decide, by decide, by decide⟩

/-- C7 (amended): `createUser` always yields a fresh record with status
`AVAILABLE`, no location, no room and an avatar token in 1..10, and installs
it unconditionally, replacing any existing record for the connId rather than
failing. -/
theorem c7_createUser_amended (s : RMState) (sid name : String) (roll now : Nat) :
    (createUser s sid name roll now).1.status = Status.AVAILABLE ∧
    (createUser s sid name roll now).1.roomId = none ∧
    (createUser s sid name roll now).1.lat = none ∧
    (createUser s sid name roll now).1.lon = none ∧
    (createUser s sid name roll now).1.radius = none ∧
    1 ≤ (createUser s sid name roll now).1.avatar ∧
    (createUser s sid name roll now).1.avatar ≤ 10 ∧
    lookupUser (createUser s sid name roll now).2 sid =
      some (createUser s sid name roll now).1 := by
  refine ⟨rfl, rfl, rfl, rfl, rfl, ?_, ?_, ?_⟩
  · simp [createUser]
  · have h : roll % 10 < 10 := Nat.mod_lt roll (by norm_num)
    simp only [createUser]
    omega
  · exact lookupEntry_setEntry_self _ _ _

/-- C3 counterexample: two freshly created participants with no profile
fields.  The caller's `gender` and the candidate's `interest` are both
unset, yet `findRealMatch` returns the candidate: JS strict equality on two
`undefined` fields is true, so an unset `interestTag` does satisfy its side
of the check against an unset `genderTag`. -/
theorem c3_findRealMatch_counterexample :
    (findRealMatch demoAB "a" 0).map (fun u => (u.id, u.interest)) = some ("b", none) ∧
    (lookupUser demoAB "a").map (fun u => u.gender) = some none ∧
    sideMatches none none = true :=
  ⟨by decide, by decide, rfl⟩

/-- C3 (amended): every candidate returned by `findRealMatch` is a
participant other than the caller, is `AVAILABLE`, and passes both wildcard
side checks; an unset `interestTag` never satisfies its side against a set
`genderTag`, but it does satisfy it against an unset `genderTag` (both are
`undefined`, which compare equal under JS `===`). -/
theorem c3_findRealMatch_amended
    (s : RMState) (sid : String) (pick : Nat) (cu u : User)
    (hkeys : keysConsistent s)
    (hcu : lookupUser s sid = some cu)
    (hret : findRealMatch s sid pick = some u) :
    (u.id ≠ sid ∧ u.status = Status.AVAILABLE ∧
     sideMatches cu.interest u.gender = true ∧
     sideMatches u.interest cu.gender = true) ∧
    (∀ g : String, sideMatches none (some g) = false) ∧
    sideMatches none none = true := by
  refine ⟨?_, fun g => rfl, rfl⟩
  unfold findRealMatch at hret
  rw [hcu] at hret
  dsimp only at hret
  split at hret
  case isFalse => exact absurd hret (by simp)
  case isTrue hlen =>
    have hmem := List.getElem?_mem hret
    rcases List.mem_filterMap.mp hmem with ⟨p, hpmem, hfp⟩
    by_cases h1 : p.1 = sid
    · rw [if_pos h1] at hfp
      exact absurd hfp (by simp)
    · rw [if_neg h1] at hfp
      by_cases h2 : p.2.status ≠ Status.AVAILABLE
      · rw [if_pos h2] at hfp
        exact absurd hfp (by simp)
      · rw [if_neg h2] at hfp
        by_cases h3 : (sideMatches cu.interest p.2.gender &&
            sideMatches p.2.interest cu.gender) = true
        · rw [if_pos h3] at hfp
          have hup : u = p.2 := by simpa using hfp.symm
          have h3' : sideMatches cu.interest p.2.gender = true ∧
              sideMatches p.2.interest cu.gender = true := by simpa using h3
          subst hup
          exact ⟨(hkeys p hpmem) ▸ h1, not_not.mp h2, h3'.1, h3'.2⟩
        · rw [if_neg h3] at hfp
          exact absurd hfp (by simp)

/-- C3 witness: the amended characterization instantiated on the concrete
two-participant state where `findRealMatch` returns `b`. -/
theorem c3_findRealMatch_witness :
    ((⟨"b", "Beta Bee", 6, none, none, none, none, .AVAILABLE, none, none, 0⟩ : User).id ≠ "a" ∧
     (⟨"b", "Beta Bee", 6, none, none, none, none, .AVAILABLE, none, none, 0⟩ : User).status
        = Status.AVAILABLE ∧
     sideMatches (User.interest ⟨"a", "Alpha Ant", 4, none, none, none, none, .AVAILABLE,
        none, none, 0⟩)
       (User.gender ⟨"b", "Beta Bee", 6, none, none, none, none, .AVAILABLE, none, none, 0⟩)
        = true ∧
     sideMatches (User.interest ⟨"b", "Beta Bee", 6, none, none, none, none, .AVAILABLE,
        none, none, 0⟩)
       (User.gender ⟨"a", "Alpha Ant", 4, none, none, none, none, .AVAILABLE, none, none, 0⟩)
        = true) ∧
    (∀ g : String, sideMatches none (some g) = false) ∧
    sideMatches none none = true :=
  c3_findRealMatch_amended demoAB "a" 0
    ⟨"a", "Alpha Ant", 4, none, none, none, none, .AVAILABLE, none, none, 0⟩
    ⟨"b", "Beta Bee", 6, none, none, none, none, .AVAILABLE, none, none, 0⟩
    (by decide) (by decide) (by decide)

/-- Helper: `leaveRoom` on a participant whose `roomId` is `null` returns
`null` and changes nothing. -/
theorem leaveRoom_noRoom (t : RMState) (w : String) (v : User)
    (hv : lookupUser t w = some v) (hnone : v.roomId = none) :
    leaveRoom t w = (none, t) := by
  unfold leaveRoom
  rw [hv]
  dsimp only
  rw [hnone]

/-- C5 (confirmed): `leaveRoom` on a participant in a two-member
private/agent room destroys the room and, in the same operation, resets the
departing participant and any remaining peer counterpart to `AVAILABLE` with
`roomId = null`; an immediate second `leaveRoom` on the same connId returns
none and changes no state; `leaveRoom` on a participant with no room returns
none and changes no state. -/
theorem c5_leaveRoom_teardown
    (s : RMState) (uid rid : String) (u : User) (room : Room) (m : MemberRef)
    (hu : lookupUser s uid = some u)
    (hrid : u.roomId = some rid)
    (hroom : lookupRoom s rid = some room)
    (hmem : room.users = [MemberRef.user uid, m] ∨ room.users = [m, MemberRef.user uid])
    (hne : memberId m ≠ uid) :
    (leaveRoom s uid).1 = some ⟨rid, resetUser u, true, [m], true⟩ ∧
    lookupRoom (leaveRoom s uid).2 rid = none ∧
    lookupUser (leaveRoom s uid).2 uid = some (resetUser u) ∧
    (∀ oid ou, m = MemberRef.user oid → lookupUser s oid = some ou →
      lookupUser (leaveRoom s uid).2 oid = some (resetUser ou)) ∧
    leaveRoom (leaveRoom s uid).2 uid = (none, (leaveRoom s uid).2) ∧
    (∀ (t : RMState) (w : String) (v : User), lookupUser t w = some v →
      v.roomId = none → leaveRoom t w = (none, t)) := by
  have hb : (memberId m != uid) = true := bne_iff_ne.mpr hne
  have hself : (memberId (MemberRef.user uid) != uid) = false := by simp [memberId]
  have hfilter : room.users.filter (fun x => memberId x != uid) = [m] := by
    rcases hmem with h | h <;> rw [h] <;>
      simp [List.filter_cons, List.filter_nil, hself, hb]
  have hred : leaveRoom s uid =
      (some ⟨rid, resetUser u, true, [m], true⟩,
        { resetOther (leaveRoomMid s uid rid u room [m]) m with
            rooms := eraseEntry (resetOther (leaveRoomMid s uid rid u room [m]) m).rooms rid }) := by
    unfold leaveRoom
    rw [hu]
    dsimp only
    rw [hrid]
    dsimp only
    rw [hroom]
    dsimp only
    rw [hfilter]
    rfl
  refine ⟨by rw [hred], ?_, ?_, ?_, ?_, leaveRoom_noRoom⟩
  · rw [hred]
    show lookupEntry
      (eraseEntry (resetOther (leaveRoomMid s uid rid u room [m]) m).rooms rid) rid = none
    rw [resetOther_rooms]
    exact lookupEntry_eraseEntry_self _ _
  · rw [hred]
    show lookupUser (resetOther (leaveRoomMid s uid rid u room [m]) m) uid = _
    rw [lookupUser_resetOther_ne _ _ _ hne]
    exact lookupEntry_setEntry_self _ _ _
  · intro oid ou hm hou
    subst hm
    have hoid : oid ≠ uid := by simpa [memberId] using hne
    rw [hred]
    show lookupUser (resetOther (leaveRoomMid s uid rid u room [MemberRef.user oid])
      (MemberRef.user oid)) oid = _
    simp only [resetOther]
    have hlk1 : lookupUser (leaveRoomMid s uid rid u room [MemberRef.user oid]) oid
        = some ou := by
      show lookupEntry (setEntry s.users uid (resetUser u)) oid = some ou
      rw [lookupEntry_setEntry_ne _ _ _ _ hoid]
      exact hou
    rw [hlk1]
    dsimp only
    exact lookupEntry_setEntry_self _ _ _
  · have hafter : lookupUser (leaveRoom s uid).2 uid = some (resetUser u) := by
      rw [hred]
      show lookupUser (resetOther (leaveRoomMid s uid rid u room [m]) m) uid = _
      rw [lookupUser_resetOther_ne _ _ _ hne]
      exact lookupEntry_setEntry_self _ _ _
    exact leaveRoom_noRoom _ _ _ hafter rfl

/-- C5 witness: the teardown properties instantiated on the concrete paired
state, where `a` leaves room `r1` shared with peer `b`. -/
theorem c5_leaveRoom_witness :
    (leaveRoom demoPaired "a").1 =
      some ⟨"r1", resetUser ⟨"a", "Alpha Ant", 4, some "r1", none, none, none, .BUSY,
        none, none, 0⟩, true, [MemberRef.user "b"], true⟩ ∧
    lookupRoom (leaveRoom demoPaired "a").2 "r1" = none ∧
    lookupUser (leaveRoom demoPaired "a").2 "a" =
      some (resetUser ⟨"a", "Alpha Ant", 4, some "r1", none, none, none, .BUSY,
        none, none, 0⟩) ∧
    (∀ oid ou, MemberRef.user "b" = MemberRef.user oid →
      lookupUser demoPaired oid = some ou →
      lookupUser (leaveRoom demoPaired "a").2 oid = some (resetUser ou)) ∧
    leaveRoom (leaveRoom demoPaired "a").2 "a" = (none, (leaveRoom demoPaired "a").2) ∧
    (∀ (t : RMState) (w : String) (v : User), lookupUser t w = some v →
      v.roomId = none → leaveRoom t w = (none, t)) :=
  c5_leaveRoom_teardown demoPaired "a" "r1"
    ⟨"a", "Alpha Ant", 4, some "r1", none, none, none, .BUSY, none, none, 0⟩
    ⟨"r1", [MemberRef.user "a", MemberRef.user "b"], 10, .privateRoom, none⟩
    (MemberRef.user "b")
    (by decide) (by decide) (by decide) (Or.inl (by decide)) (by decide)

/-- C8 counterexample: when the external generator succeeds but produces
empty (or absent) content, the request does not resolve to none — it
resolves with the `"..."` placeholder text and the computed typing delay. -/
theorem c8_generateReply_counterexample :
    processQueueStep initialBots true (.ok (some "")) ⟨"bot-rohan", "Hi"⟩ =
      .resolved (some ⟨"...", 1000⟩) ∧
    processQueueStep initialBots true (.ok none) ⟨"bot-rohan", "Hi"⟩ =
      .resolved (some ⟨"...", 1000⟩) ∧
    Resolution.resolved (some (⟨"...", 1000⟩ : Reply)) ≠ Resolution.resolved none :=
  ⟨by decide, by decide, by decide⟩

/-- C8 (amended): a request to a known bot resolves to none when the client
is uninitialized or the generator throws; on non-empty content it resolves
with that text and delay `max(1000, length * 20)`; on empty or absent
content it resolves with the `"..."` placeholder (not none); and the queue
keeps serving the remaining requests one at a time after any outcome. -/
theorem c8_generateReply_amended (bots : List Bot) (g : Bool) (req : Request)
    (outcome : GenOutcome) (rest : List (Request × GenOutcome))
    (hbot : (bots.find? (fun b => b.id = req.botId)).isSome = true) :
    (g = false → processQueueStep bots g outcome req = .resolved none) ∧
    (outcome = .err → processQueueStep bots g outcome req = .resolved none) ∧
    (∀ str, outcome = .ok (some str) → str ≠ "" → g = true →
      processQueueStep bots g outcome req =
        .resolved (some ⟨str, max 1000 (req.userMessage.length * 20)⟩)) ∧
    ((outcome = .ok none ∨ outcome = .ok (some "")) → g = true →
      processQueueStep bots g outcome req =
        .resolved (some ⟨"...", max 1000 (req.userMessage.length * 20)⟩)) ∧
    processQueueRun bots g ((req, outcome) :: rest) =
      processQueueStep bots g outcome req :: processQueueRun bots g rest := by
  obtain ⟨b, hb⟩ := Option.isSome_iff_exists.mp hbot
  refine ⟨?_, ?_, ?_, ?_, rfl⟩
  · intro hg
    subst hg
    unfold processQueueStep
    rw [hb]
    rfl
  · intro ho
    subst ho
    unfold processQueueStep
    rw [hb]
    cases g <;> rfl
  · intro str ho hstr hg
    subst ho
    subst hg
    unfold processQueueStep
    rw [hb]
    simp [jsOrPlaceholder, hstr]
  · intro ho hg
    subst hg
    unfold processQueueStep
    rw [hb]
    rcases ho with h | h <;> subst h <;> simp [jsOrPlaceholder]

/-- C8 witness: the amended behavior instantiated on the catalog and a
concrete request. -/
theorem c8_generateReply_witness :
    (false = false → processQueueStep initialBots false .err ⟨"bot-rohan", "Hello"⟩ =
      .resolved none) ∧
    (GenOutcome.err = .err → processQueueStep initialBots false .err ⟨"bot-rohan", "Hello"⟩ =
      .resolved none) ∧
    (∀ str, GenOutcome.err = .ok (some str) → str ≠ "" → false = true →
      processQueueStep initialBots false .err ⟨"bot-rohan", "Hello"⟩ =
        .resolved (some ⟨str, max 1000 (("Hello" : String).length * 20)⟩)) ∧
    ((GenOutcome.err = .ok none ∨ GenOutcome.err = .ok (some "")) → false = true →
      processQueueStep initialBots false .err ⟨"bot-rohan", "Hello"⟩ =
        .resolved (some ⟨"...", max 1000 (("Hello" : String).length * 20)⟩)) ∧
    processQueueRun initialBots false ((⟨"bot-rohan", "Hello"⟩, .err) :: []) =
      processQueueStep initialBots false .err ⟨"bot-rohan", "Hello"⟩ ::
        processQueueRun initialBots false [] :=
  c8_generateReply_amended initialBots false ⟨"bot-rohan", "Hello"⟩ .err [] (by decide)

/-- C9 counterexample: the legacy `request_chat` path emits the catalog
name.  Its greeting `receive_message` carries `username = "Rohan"`, and its
raw `room_users` payload for the agent room lists the catalog name as well —
neither is the `"Stranger"` placeholder. -/
theorem c9_masking_counterexample :
    (getBotById initialState "bot-rohan").map
        (fun b => (requestChatGreeting b "Hi").username) = some "Rohan" ∧
    (lookupRoom demoBotRoom "rb").map
        (fun r => (requestChatRoomUsers demoBotRoom r).map (fun v => v.username)) =
      some ["Alpha Ant", "Rohan"] ∧
    "Rohan" ≠ maskedName :=
  ⟨by decide, by decide, by decide⟩

/-- C9 (amended): the `start_matching` flow masks agent names in
`room_joined`/`room_users` (via `uiUsers`) and in its greeting, and
`send_message` bot replies are masked; but the legacy `request_chat` path
emits the agent's catalog `username` unmasked. -/
theorem c9_masking_amended (s : RMState) (room : Room) (b : Bot) (t bid : String)
    (av : AvatarVal) :
    (∀ m ∈ uiUsers s room, m.id.startsWith "bot-" = true → m.username = maskedName) ∧
    (sendMessageBotReply b t).username = maskedName ∧
    (startMatchingGreeting bid av t).username = maskedName ∧
    (requestChatGreeting b t).username = b.username := by
  refine ⟨?_, rfl, rfl, rfl⟩
  intro m hm hpre
  rcases List.mem_map.mp hm with ⟨m0, hm0, hmask⟩
  rw [← hmask] at hpre ⊢
  simp only [maskUsername]
  rw [if_pos (by simpa using hpre)]

/-- C9 witness: the amended masking facts instantiated on the concrete agent
room state and the Rohan catalog entry. -/
theorem c9_masking_witness :
    (∀ m ∈ uiUsers demoBotRoom ⟨"rb", [.user "a", .bot "bot-rohan"], 10, .privateBot,
        some "bot-rohan"⟩, m.id.startsWith "bot-" = true → m.username = maskedName) ∧
    (sendMessageBotReply ⟨"bot-rohan", "Rohan", "😎", "MALE", none, none, .AVAILABLE,
        "street-smart desi persona prompt", none⟩ "yo").username = maskedName ∧
    (startMatchingGreeting "bot-rohan" (.emoji "😎") "yo").username = maskedName ∧
    (requestChatGreeting ⟨"bot-rohan", "Rohan", "😎", "MALE", none, none, .AVAILABLE,
        "street-smart desi persona prompt", none⟩ "yo").username =
      (⟨"bot-rohan", "Rohan", "😎", "MALE", none, none, .AVAILABLE,
        "street-smart desi persona prompt", none⟩ : Bot).username :=
  c9_masking_amended demoBotRoom
    ⟨"rb", [.user "a", .bot "bot-rohan"], 10, .privateBot, some "bot-rohan"⟩
    ⟨"bot-rohan", "Rohan", "😎", "MALE", none, none, .AVAILABLE,
      "street-smart desi persona prompt", none⟩
    "yo" "bot-rohan" (.emoji "😎")

/-- Helper: every entry of `realNearby` comes from a qualifying participant. -/
theorem realNearby_spec (dist : ℚ → ℚ → ℚ → ℚ → ℚ) (s : RMState) (cu : User)
    (sid : String) {e : NearbyEntry} (he : e ∈ realNearby dist s cu sid) :
    ∃ p ∈ s.users, p.1 ≠ sid ∧ p.2.status = Status.AVAILABLE ∧
      truthyQ p.2.lat = true ∧ truthyQ p.2.lon = true ∧
      dist (cu.lat.getD 0) (cu.lon.getD 0) (p.2.lat.getD 0) (p.2.lon.getD 0)
        ≤ cu.radius.getD 0 ∧
      e = mkRealEntry p.2
        (dist (cu.lat.getD 0) (cu.lon.getD 0) (p.2.lat.getD 0) (p.2.lon.getD 0)) := by
  rcases List.mem_filterMap.mp he with ⟨p, hp, hfp⟩
  by_cases h1 : p.1 = sid
  · rw [if_pos h1] at hfp
    exact absurd hfp (by simp)
  · rw [if_neg h1] at hfp
    by_cases h2 : p.2.status ≠ Status.AVAILABLE
    · rw [if_pos h2] at hfp
      exact absurd hfp (by simp)
    · rw [if_neg h2] at hfp
      by_cases h3 : ¬(truthyQ p.2.lat = true ∧ truthyQ p.2.lon = true)
      · rw [if_pos h3] at hfp
        exact absurd hfp (by simp)
      · rw [if_neg h3] at hfp
        rw [not_not] at h3
        dsimp only at hfp
        by_cases h4 : dist (cu.lat.getD 0) (cu.lon.getD 0) (p.2.lat.getD 0) (p.2.lon.getD 0)
            ≤ cu.radius.getD 0
        · rw [if_pos h4] at hfp
          exact ⟨p, hp, h1, not_not.mp h2, h3.1, h3.2, h4, (Option.some.inj hfp).symm⟩
        · rw [if_neg h4] at hfp
          exact absurd hfp (by simp)

/-- Helper: every qualifying participant contributes its entry to
`realNearby`. -/
theorem mkRealEntry_mem_realNearby (dist : ℚ → ℚ → ℚ → ℚ → ℚ) (s : RMState) (cu : User)
    (sid : String) (p : String × User) (hp : p ∈ s.users) (h1 : p.1 ≠ sid)
    (h2 : p.2.status = Status.AVAILABLE)
    (h3 : truthyQ p.2.lat = true) (h4 : truthyQ p.2.lon = true)
    (h5 : dist (cu.lat.getD 0) (cu.lon.getD 0) (p.2.lat.getD 0) (p.2.lon.getD 0)
        ≤ cu.radius.getD 0) :
    mkRealEntry p.2 (dist (cu.lat.getD 0) (cu.lon.getD 0) (p.2.lat.getD 0) (p.2.lon.getD 0))
      ∈ realNearby dist s cu sid := by
  refine List.mem_filterMap.mpr ⟨p, hp, ?_⟩
  rw [if_neg h1, if_neg (by simp [h2]), if_neg (by simp [h3, h4])]
  dsimp only
  rw [if_pos h5]

/-- Helper: every entry of `botNearby` is a catalog bot with its synthetic
index distance. -/
theorem botNearby_spec (s : RMState) (la lo : ℚ) {e : NearbyEntry}
    (he : e ∈ botNearby s la lo) : ∃ i b, s.bots[i]? = some b ∧ e = mkBotEntry b i := by
  rcases List.mem_map.mp he with ⟨q, hq, hge⟩
  unfold getBots at hq
  rcases List.mem_map.mp hq with ⟨ib, hib, hfib⟩
  refine ⟨ib.1, ib.2, List.mem_enum_iff_getElem?.mp hib, ?_⟩
  rw [← hge, ← hfib]
  rfl

/-- Helper: every catalog bot contributes its entry to `botNearby`. -/
theorem mkBotEntry_mem_botNearby (s : RMState) (la lo : ℚ) (i : Nat) (b : Bot)
    (hb : s.bots[i]? = some b) : mkBotEntry b i ∈ botNearby s la lo := by
  refine List.mem_map.mpr
    ⟨({ b with lat := some (la + 1/1000), lon := some (lo + 1/1000) }, 100 + 50 * (i : ℤ)),
      ?_, rfl⟩
  unfold getBots
  exact List.mem_map.mpr ⟨(i, b), List.mem_enum_iff_getElem?.mpr hb, rfl⟩

/-- C10 (confirmed): a `register_location` payload with `lat`, `lon` or
`radius` equal to 0 is rejected with an error event and no state change; a
caller whose stored latitude or longitude is absent or 0 gets the empty
nearby list; and every non-bot nearby entry comes from a participant with
truthy (non-null, non-zero) coordinates. -/
theorem c10_zero_location (dist : ℚ → ℚ → ℚ → ℚ → ℚ) (s : RMState) (sid : String)
    (lat lon radius : Option ℚ) (cu : User) :
    ((lat = some 0 ∨ lon = some 0 ∨ radius = some 0) →
      registerLocationHandler dist s sid lat lon radius =
        (.errorEvent "Invalid location data", s)) ∧
    (lookupUser s sid = some cu →
      (cu.lat = none ∨ cu.lat = some 0 ∨ cu.lon = none ∨ cu.lon = some 0) →
      findNearbyUsers dist s sid = []) ∧
    (∀ e ∈ findNearbyUsers dist s sid, e.isBot = false →
      ∃ p ∈ s.users, e.id = p.2.id ∧ truthyQ p.2.lat = true ∧ truthyQ p.2.lon = true) := by
  refine ⟨?_, ?_, ?_⟩
  · intro hzero
    have hcond : ¬(truthyQ lat = true ∧ truthyQ lon = true ∧ truthyQ radius = true) := by
      rcases hzero with h | h | h <;> subst h <;> simp [truthyQ]
    unfold registerLocationHandler
    rw [if_pos hcond]
  · intro hcu hbad
    have hcond : ¬(truthyQ cu.lat = true ∧ truthyQ cu.lon = true) := by
      rcases hbad with h | h | h | h <;> simp [truthyQ, h]
    unfold findNearbyUsers
    rw [hcu]
    dsimp only
    rw [if_pos hcond]
  · intro e he hb
    unfold findNearbyUsers at he
    cases hcu2 : lookupUser s sid with
    | none =>
      rw [hcu2] at he
      simp at he
    | some cu2 =>
      rw [hcu2] at he
      dsimp only at he
      split at he
      · simp at he
      · rw [List.mem_insertionSort] at he
        rcases List.mem_append.mp he with h | h
        · rcases realNearby_spec dist s cu2 sid h with ⟨p, hp, _, _, hlat2, hlon2, _, hee⟩
          exact ⟨p, hp, by rw [hee]; rfl, hlat2, hlon2⟩
        · rcases botNearby_spec s _ _ h with ⟨i, b, _, hee⟩
          rw [hee] at hb
          exact absurd hb (by simp [mkBotEntry])

/-- C10 witness: rejection of a zero-coordinate payload and the empty nearby
result for an unregistered caller, on the concrete one-participant state. -/
theorem c10_zero_location_witness :
    registerLocationHandler modelDist demoA "a" (some 0) (some 1) (some 2) =
      (.errorEvent "Invalid location data", demoA) ∧
    findNearbyUsers modelDist demoA "a" = [] :=
  ⟨(c10_zero_location modelDist demoA "a" (some 0) (some 1) (some 2)
      ⟨"a", "Alpha Ant", 4, none, none, none, none, .AVAILABLE, none, none, 0⟩).1
      (Or.inl rfl),
   (c10_zero_location modelDist demoA "a" (some 0) (some 1) (some 2)
      ⟨"a", "Alpha Ant", 4, none, none, none, none, .AVAILABLE, none, none, 0⟩).2.1
      (by decide) (Or.inl rfl)⟩

/-- Helper: `tieState` is the registry state produced by creating and
registering the three participants in order. -/
theorem tieState_reachable :
    tieState = (registerLocation (createUser (registerLocation (createUser (registerLocation
      (createUser initialState "a" "Alpha" 1 0).2 "a" 10 10 500000).2 "b" "Beta" 2 0).2
      "b" 11 11 500000).2 "c" "Gamma" 3 0).2 "c" 11 11 500000).2 := by decide

/-- Helper: two distinct members of a pairwise-related list are related one
way or the other. -/
theorem pairwise_rel_of_mem {α : Type} {R : α → α → Prop} {l : List α}
    (hp : List.Pairwise R l) {a b : α} (ha : a ∈ l) (hb : b ∈ l) (hne : a ≠ b) :
    R a b ∨ R b a := by
  induction hp with
  | nil => cases ha
  | @cons x xs hx hxs ih =>
    rcases List.mem_cons.mp ha with rfl | ha'
    · rcases List.mem_cons.mp hb with rfl | hb'
      · exact absurd rfl hne
      · exact .inl (hx b hb')
    · rcases List.mem_cons.mp hb with rfl | hb'
      · exact .inr (hx a ha')
      · exact ih ha' hb'

/-- C4 (amended): for a caller with truthy coordinates, `findNearbyUsers` is
sorted nondecreasing by distance (ties are possible, broken stably); its
non-bot entries are exactly the other `AVAILABLE` participants with truthy
coordinates within the caller's radius, at their rounded distance, and never
the caller; its bot entries are exactly the catalog personas at synthetic
distance `100 + 50 * index`. -/
theorem c4_findNearby_amended (dist : ℚ → ℚ → ℚ → ℚ → ℚ) (s : RMState) (sid : String)
    (cu : User) (hkeys : keysConsistent s) (hcu : lookupUser s sid = some cu)
    (hlat : truthyQ cu.lat = true) (hlon : truthyQ cu.lon = true) :
    List.Sorted entryLE (findNearbyUsers dist s sid) ∧
    (∀ e ∈ findNearbyUsers dist s sid, e.isBot = false → e.id ≠ sid ∧
      ∃ p ∈ s.users, p.1 ≠ sid ∧ p.2.status = Status.AVAILABLE ∧
        truthyQ p.2.lat = true ∧ truthyQ p.2.lon = true ∧
        dist (cu.lat.getD 0) (cu.lon.getD 0) (p.2.lat.getD 0) (p.2.lon.getD 0)
          ≤ cu.radius.getD 0 ∧
        e = mkRealEntry p.2 (dist (cu.lat.getD 0) (cu.lon.getD 0) (p.2.lat.getD 0)
              (p.2.lon.getD 0))) ∧
    (∀ p ∈ s.users, p.1 ≠ sid → p.2.status = Status.AVAILABLE →
      truthyQ p.2.lat = true → truthyQ p.2.lon = true →
      dist (cu.lat.getD 0) (cu.lon.getD 0) (p.2.lat.getD 0) (p.2.lon.getD 0)
        ≤ cu.radius.getD 0 →
      mkRealEntry p.2 (dist (cu.lat.getD 0) (cu.lon.getD 0) (p.2.lat.getD 0) (p.2.lon.getD 0))
        ∈ findNearbyUsers dist s sid) ∧
    (∀ e ∈ findNearbyUsers dist s sid, e.isBot = true →
      ∃ i b, s.bots[i]? = some b ∧ e = mkBotEntry b i) ∧
    (∀ i b, s.bots[i]? = some b → mkBotEntry b i ∈ findNearbyUsers dist s sid) := by
  have hred : findNearbyUsers dist s sid =
      List.insertionSort entryLE (realNearby dist s cu sid ++
        botNearby s (cu.lat.getD 0) (cu.lon.getD 0)) := by
    unfold findNearbyUsers
    rw [hcu]
    dsimp only
    rw [if_neg (by simp [hlat, hlon])]
  refine ⟨?_, ?_, ?_, ?_, ?_⟩
  · rw [hred]
    exact List.sorted_insertionSort entryLE _
  · intro e he hb
    rw [hred, List.mem_insertionSort] at he
    rcases List.mem_append.mp he with h | h
    · rcases realNearby_spec dist s cu sid h with ⟨p, hp, h1, h2, h3, h4, h5, hee⟩
      refine ⟨?_, p, hp, h1, h2, h3, h4, h5, hee⟩
      rw [hee]
      show p.2.id ≠ sid
      rw [hkeys p hp]
      exact h1
    · rcases botNearby_spec s _ _ h with ⟨i, b, _, hee⟩
      rw [hee] at hb
      exact absurd hb (by simp [mkBotEntry])
  · intro p hp h1 h2 h3 h4 h5
    rw [hred, List.mem_insertionSort]
    exact List.mem_append.mpr
      (.inl (mkRealEntry_mem_realNearby dist s cu sid p hp h1 h2 h3 h4 h5))
  · intro e he hb
    rw [hred, List.mem_insertionSort] at he
    rcases List.mem_append.mp he with h | h
    · rcases realNearby_spec dist s cu sid h with ⟨p, hp, _, _, _, _, _, hee⟩
      rw [hee] at hb
      exact absurd hb (by simp [mkRealEntry])
    · exact botNearby_spec s _ _ h
  · intro i b hbi
    rw [hred, List.mem_insertionSort]
    exact List.mem_append.mpr (.inr (mkBotEntry_mem_botNearby s _ _ i b hbi))

/-- C4 counterexample: with participants `b` and `c` registered at the
identical coordinate, both their entries appear in the caller's nearby list
at the same distance, so the sequence is not strictly ascending by
distance. -/
theorem c4_findNearby_counterexample :
    mkRealEntry tieB (modelDist 10 10 11 11) ∈ findNearbyUsers modelDist tieState "a" ∧
    mkRealEntry tieC (modelDist 10 10 11 11) ∈ findNearbyUsers modelDist tieState "a" ∧
    (mkRealEntry tieB (modelDist 10 10 11 11)).distance =
      (mkRealEntry tieC (modelDist 10 10 11 11)).distance ∧
    ¬ List.Pairwise (fun x y => x.distance < y.distance)
        (findNearbyUsers modelDist tieState "a") := by
  have hd : modelDist 10 10 11 11 ≤ (500000 : ℚ) := by norm_num [modelDist, ratAbs]
  have hca : lookupUser tieState "a" = some tieCaller := by decide
  have hred : findNearbyUsers modelDist tieState "a" =
      List.insertionSort entryLE (realNearby modelDist tieState tieCaller "a" ++
        botNearby tieState (tieCaller.lat.getD 0) (tieCaller.lon.getD 0)) := by
    unfold findNearbyUsers
    rw [hca]
    dsimp only
    rw [if_neg (by decide)]
  have hmemB : mkRealEntry tieB (modelDist 10 10 11 11)
      ∈ findNearbyUsers modelDist tieState "a" := by
    rw [hred, List.mem_insertionSort]
    exact List.mem_append.mpr (.inl (mkRealEntry_mem_realNearby modelDist tieState tieCaller
      "a" ("b", tieB) (by decide) (by decide) (by decide) (by decide) (by decide) hd))
  have hmemC : mkRealEntry tieC (modelDist 10 10 11 11)
      ∈ findNearbyUsers modelDist tieState "a" := by
    rw [hred, List.mem_insertionSort]
    exact List.mem_append.mpr (.inl (mkRealEntry_mem_realNearby modelDist tieState tieCaller
      "a" ("c", tieC) (by decide) (by decide) (by decide) (by decide) (by decide) hd))
  have hneq : mkRealEntry tieB (modelDist 10 10 11 11) ≠
      mkRealEntry tieC (modelDist 10 10 11 11) := by
    intro h
    exact absurd (congrArg NearbyEntry.id h) (by decide)
  refine ⟨hmemB, hmemC, rfl, ?_⟩
  intro hpw
  rcases pairwise_rel_of_mem hpw hmemB hmemC hneq with h | h
  · exact lt_irrefl _ h
  · exact lt_irrefl _ h

/-- C4 witness: the amended characterization instantiated on the concrete
three-participant state: the result is sorted nondecreasing and contains the
first catalog persona at its synthetic distance. -/
theorem c4_findNearby_witness :
    List.Sorted entryLE (findNearbyUsers modelDist tieState "a") ∧
    mkBotEntry ⟨"bot-rohan", "Rohan", "😎", "MALE", none, none, .AVAILABLE,
      "street-smart desi persona prompt", none⟩ 0 ∈ findNearbyUsers modelDist tieState "a" :=
  ⟨(c4_findNearby_amended modelDist tieState "a" tieCaller
      (by decide) (by decide) (by decide) (by decide)).1,
   (c4_findNearby_amended modelDist tieState "a" tieCaller
      (by decide) (by decide) (by decide) (by decide)).2.2.2.2 0
      ⟨"bot-rohan", "Rohan", "😎", "MALE", none, none, .AVAILABLE,
        "street-smart desi persona prompt", none⟩ (by decide)⟩

end AroundU
